import Mathlib

/-!
A shallow embedding in Lean 4 of the check-execution engine, result pipeline
and alert engine of the ArrowGo monitoring service, with theorems settling
the specification claims C1-C10 against the embedded code.

Conventions used throughout:
- Go maps are modeled as association lists with a `setKey` update and
  `List.lookup`; only keyed lookup and update are relied on.
- Wall-clock times and durations are modeled in integer seconds; the Go code
  uses nanosecond `time.Duration`, and no claim depends on sub-second
  resolution.
- `map[string]interface{}` payloads (`CheckResult.Data`) are modeled by the
  closed inductive `DataVal`, covering the value shapes the embedded code
  actually stores.
- Fallible Go functions returning `(T, error)` are modeled as
  `T × Option String`, the `Option String` being the Go error.
-/

namespace ArrowGo

/-- Association-list update mirroring a Go map assignment m[k] = v:
afterwards `lookup k` yields v and every other key is unchanged. -/
def setKey {κ α : Type} [BEq κ] (m : List (κ × α)) (k : κ) (v : α) :
    List (κ × α) :=
  (k, v) :: m.filter (fun p => !(p.1 == k))

/-- monitor.ErrorDetails: the error kind and message carried in a CheckResult
(`Error.Type` / `Error.Message` in internal/monitor). -/
structure ErrorDetails where
  type : String
  message : String
deriving DecidableEq, Repr

/-- monitor.RequestDetails: the request record of a CheckResult. -/
structure RequestDetails where
  method : String := ""
  url : String := ""
  headers : List (String × String) := []
  body : String := ""
deriving DecidableEq, Repr

/-- monitor.ResponseDetails: the response record of a CheckResult. -/
structure ResponseDetails where
  statusCode : Int := 0
  headers : List (String × String) := []
  body : String := ""
  contentLength : Int := 0
deriving DecidableEq, Repr

/-- One record of the certificate chain built by SSLChecker.Check
(part_005 lines 128-161); the fields the claims inspect. -/
structure CertInfo where
  index : Nat := 0
  subjectCn : String := ""
  issuerCn : String := ""
  serial : String := ""
  notBefore : Int := 0
  notAfter : Int := 0
  daysUntilExpiry : Int := 0
  isCa : Bool := false
deriving DecidableEq, Repr

/-- Value shapes stored in a CheckResult's `Data` map
(Go `map[string]interface{}`). -/
inductive DataVal where
  | s : String → DataVal
  | i : Int → DataVal
  | b : Bool → DataVal
  | chain : List CertInfo → DataVal
deriving DecidableEq, Repr

/-- monitor.CheckResult: the uniform probe output (part_005 / http.go). -/
structure CheckResult where
  status : String
  responseTime : Int := 0
  message : String := ""
  request : RequestDetails := {}
  response : ResponseDetails := {}
  error : Option ErrorDetails := none
  data : List (String × DataVal) := []
deriving DecidableEq, Repr

/-- monitor.MonitorTarget: a declared probe subject (fields used by the
embedded operations; remaining protocol fields are carried verbatim). -/
structure MonitorTarget where
  id : Nat
  name : String := ""
  type : String := ""
  address : String := ""
  port : Int := 0
  interval : Int := 60
  enabled : Bool := true
  httpMethod : String := ""
  httpBody : String := ""
  resolvedHost : String := ""
  followRedirects : Bool := true
  maxRedirects : Int := 0
  expectedStatusCodes : List Int := []
  dnsServer : String := ""
  dnsServerType : String := ""
  dnsServerName : String := ""
  sslWarnDays : Int := 0
  sslCriticalDays : Int := 0
  sslCheck : Bool := false
  sslGetChain : Bool := false
deriving DecidableEq, Repr

/-- models.MonitorStatus: the CurrentStatus row kept per target. `dataStored`
models the JSON-serialized `Data` column content-preservingly. -/
structure MonitorStatus where
  targetId : Nat
  status : String := ""
  responseTime : Int := 0
  message : String := ""
  checkedAt : Int := 0
  uptimePercentage : Nat := 0
  sslDaysExpiry : Option Int := none
  sslIssuer : Option String := none
  sslSubject : Option String := none
  sslSerial : Option String := none
  resolvedIp : Option String := none
  dataStored : Option (List (String × DataVal)) := none
  dnsRecords : Option String := none
deriving DecidableEq, Repr

/-- models.MonitorHistory: one append-only history row per check. -/
structure HistoryRecord where
  targetId : Nat
  status : String
  responseTime : Int := 0
  message : String := ""
  checkedAt : Int
deriving DecidableEq, Repr

/-- internal/monitor/http.go determineStatus: with an empty expected set the
2xx range is up, otherwise membership in the expected set decides. -/
def determineStatus (statusCode : Int) (expectedCodes : List Int) : String :=
  if expectedCodes.length = 0 then
    if 200 ≤ statusCode ∧ statusCode < 300 then "up" else "down"
  else if statusCode ∈ expectedCodes then "up" else "down"

/-- 30 days in seconds: `time.Now().AddDate(0, 0, -30)` is `now - 30*86400`. -/
def thirtyDaysSec : Int := 30 * 86400

/-- Whether a history row falls in the trailing 30-day window
(`checked_at >= now - 30d`). -/
def inWindow (now : Int) (r : HistoryRecord) : Bool :=
  decide (now - thirtyDaysSec ≤ r.checkedAt)

/-- First count of Service.updateUptimePercentage: history rows of the target
inside the trailing 30-day window. -/
def windowCount (hist : List HistoryRecord) (tid : Nat) (now : Int) : Nat :=
  (hist.filter (fun r => r.targetId == tid && inWindow now r)).length

/-- Second count of Service.updateUptimePercentage: rows of the target with
status "up" inside the trailing 30-day window. -/
def windowUpCount (hist : List HistoryRecord) (tid : Nat) (now : Int) : Nat :=
  (hist.filter
    (fun r => r.targetId == tid && r.status == "up" && inWindow now r)).length

/-- The uptime value Service.updateUptimePercentage computes:
`(upCount * 100) / historyCount` in integer division, 0 when the window is
empty (part_004 lines 430-436). -/
def uptimeValue (hist : List HistoryRecord) (tid : Nat) (now : Int) : Nat :=
  let historyCount := windowCount hist tid now
  let upCount := windowUpCount hist tid now
  if 0 < historyCount then (upCount * 100) / historyCount else 0

/-- Service.updateUptimePercentage (part_004 lines 416-439): re-read the
status row of the target and, when it exists, save it back with the
recomputed rolling uptime percentage. -/
def updateUptimePercentage (statuses : List (Nat × MonitorStatus))
    (hist : List HistoryRecord) (tid : Nat) (now : Int) :
    List (Nat × MonitorStatus) :=
  match statuses.lookup tid with
  | none => statuses
  | some st =>
      setKey statuses tid { st with uptimePercentage := uptimeValue hist tid now }

/-- alert.AlertEvent: one monitoring event fed to the alert engine
(internal/alert/alert.go lines 35-46); timestamps in seconds. -/
structure AlertEvent where
  targetId : Nat
  targetName : String := ""
  status : String
  responseTime : Int := 0
  timestamp : Int := 0
deriving DecidableEq, Repr

/-- alert.AlertCondition (alert.go lines 101-105). -/
structure AlertCondition where
  downConsecutiveTimes : Int := 0
  slowResponseThreshold : Int := 0
  statusChanged : Bool := false
deriving DecidableEq, Repr

/-- alert.AlertRule (alert.go lines 88-98); `lastAlertTime = none` models the
Go zero `time.Time` (`LastAlertTime.IsZero()`). -/
structure AlertRule where
  id : Nat
  targetId : Option Nat := none
  enabled : Bool := true
  conditions : AlertCondition := {}
  channels : List Nat := []
  cooldownSeconds : Int := 0
  lastAlertTime : Option Int := none
deriving DecidableEq, Repr

/-- alert.Manager (alert.go lines 108-112): rules and the per-target event
buffers. The rules map is modeled as a list; each rule is handled
independently inside ProcessEvent, so map order is immaterial. -/
structure AlertManager where
  rules : List AlertRule := []
  eventBuffer : List (Nat × List AlertEvent) := []
deriving DecidableEq, Repr

/-- The event buffer of one target, empty when absent (ProcessEvent
initializes a missing buffer to the empty slice). -/
def getBuffer (m : AlertManager) (tid : Nat) : List AlertEvent :=
  (m.eventBuffer.lookup tid).getD []

/-- ProcessEvent lines 149-158: append the event, then keep only the most
recent 100 events (drop the oldest when the buffer exceeds 100). -/
def pushEvent (buf : List AlertEvent) (e : AlertEvent) : List AlertEvent :=
  let b := buf ++ [e]
  if 100 < b.length then b.drop 1 else b

/-- Manager.shouldAlert line 195-201: number of consecutive "down" events
counted backwards from the newest buffered event. -/
def consecutiveDown (events : List AlertEvent) : Nat :=
  (events.reverse.takeWhile (fun e => e.status == "down")).length

/-- Manager.shouldAlert (alert.go lines 187-225), evaluated against the
buffer `buf` that already contains the new event `e`. -/
def shouldAlert (buf : List AlertEvent) (e : AlertEvent) (r : AlertRule) :
    Bool :=
  (decide (0 < r.conditions.downConsecutiveTimes) && (e.status == "down")
      && decide (r.conditions.downConsecutiveTimes ≤ (consecutiveDown buf : Int)))
  || (decide (0 < r.conditions.slowResponseThreshold)
      && decide (r.conditions.slowResponseThreshold < e.responseTime))
  || (r.conditions.statusChanged && decide (2 ≤ buf.length)
      && ((buf.get? (buf.length - 2)).any (fun prev => prev.status != e.status)))

/-- The body of the per-rule loop of Manager.ProcessEvent (alert.go lines
161-183): skip disabled rules, rules for other targets, and rules still in
their cooldown window; otherwise evaluate the conditions and, on a fire,
dispatch (the returned Bool) and set `LastAlertTime = now`. -/
def stepRule (buf : List AlertEvent) (e : AlertEvent) (now : Int)
    (r : AlertRule) : AlertRule × Bool :=
  if !r.enabled then (r, false)
  else if r.targetId.any (fun t => t != e.targetId) then (r, false)
  else if decide (0 < r.cooldownSeconds)
          && r.lastAlertTime.any (fun t0 => decide (now - t0 < r.cooldownSeconds))
       then (r, false)
  else if shouldAlert buf e r then ({ r with lastAlertTime := some now }, true)
  else (r, false)

/-- Manager.ProcessEvent (alert.go lines 148-184): push the event onto the
target's buffer and run every rule. The Bool list is the per-rule dispatch
flag, aligned with `rules`. -/
def processEvent (m : AlertManager) (e : AlertEvent) (now : Int) :
    AlertManager × List Bool :=
  let buf := pushEvent (getBuffer m e.targetId) e
  let stepped := m.rules.map (stepRule buf e now)
  ({ rules := stepped.map Prod.fst,
     eventBuffer := setKey m.eventBuffer e.targetId buf },
   stepped.map Prod.snd)

/-- A sequence of events processed by the manager, each with its arrival
time; returns the final manager and the dispatch flags of every step. -/
def runEvents (m : AlertManager) (evs : List (AlertEvent × Int)) :
    AlertManager × List (List Bool) :=
  match evs with
  | [] => (m, [])
  | (e, now) :: rest =>
      let step := processEvent m e now
      let tail := runEvents step.1 rest
      (tail.1, step.2 :: tail.2)

/-- One certificate as presented by the TLS peer (the fields SSLChecker.Check
reads from `x509.Certificate`); `serial` carries the already hex-formatted
serial (`formatSerial`), timestamps are unix seconds. -/
structure SSLCert where
  subjectCn : String := ""
  issuerCn : String := ""
  serial : String := ""
  notBefore : Int := 0
  notAfter : Int := 0
  isCa : Bool := false
deriving DecidableEq, Repr

/-- `int(time.Until(notAfter).Hours() / 24)` (part_005 line 111): the Go
`int()` conversion truncates toward zero, modeled exactly by `Int.tdiv` on
the signed second count. -/
def sslDaysUntil (now notAfter : Int) : Int :=
  Int.tdiv (notAfter - now) 86400

/-- The status / message pair of SSLChecker.Check lines 113-126, from the
computed day count and the target's critical / warn thresholds. -/
def sslStatusMessage (days critDays warnDays : Int) : String × String :=
  if days < 0 then
    ("down", "Certificate expired " ++ toString (-days) ++ " days ago")
  else if days ≤ critDays then
    ("critical", "Certificate expires in " ++ toString days ++ " days (CRITICAL)")
  else if days ≤ warnDays then
    ("warning", "Certificate expires in " ++ toString days ++ " days (WARNING)")
  else
    ("up", "Certificate expires in " ++ toString days ++ " days")

/-- The chain records built by SSLChecker.Check lines 131-160 (one per
presented certificate, leaf first). -/
def sslChainInfo (now : Int) (certs : List SSLCert) : List CertInfo :=
  certs.enum.map (fun p =>
    { index := p.1, subjectCn := p.2.subjectCn, issuerCn := p.2.issuerCn,
      serial := p.2.serial, notBefore := p.2.notBefore,
      notAfter := p.2.notAfter,
      daysUntilExpiry := sslDaysUntil now p.2.notAfter, isCa := p.2.isCa })

/-- The role label of chain position i in the chain summary
(lines 168-177). -/
def sslRole (total : Nat) (i : Nat) (c : SSLCert) : String :=
  if c.isCa then (if i = total - 1 then "根证书" else "中间证书")
  else "终端证书"

/-- SSLChecker.Check after a successful TLS handshake presenting `certs`
(part_005 lines 96-233).  The dial itself and the monotonic response-time
stamp are I/O and are abstracted; `responseTime` is left 0. -/
def sslCheckSuccess (target : MonitorTarget) (now : Int)
    (certs : List SSLCert) : CheckResult :=
  match certs with
  | [] => { status := "down", message := "No certificates presented" }
  | leaf :: _ =>
      let days := sslDaysUntil now leaf.notAfter
      let sm := sslStatusMessage days target.sslCriticalDays target.sslWarnDays
      let chainInfo := if target.sslGetChain then sslChainInfo now certs else []
      let roles := certs.enum.map (fun p =>
        toString (p.1 + 1) ++ "." ++ p.2.subjectCn ++ "("
          ++ sslRole certs.length p.1 p.2 ++ ")")
      let chainSummary := "证书链包含 " ++ toString certs.length ++ " 个证书"
        ++ (if chainInfo ≠ [] then ": " ++ String.intercalate " -> " roles else "")
      let details := [sm.2,
        "颁发机构: " ++ leaf.issuerCn,
        "主题: " ++ leaf.subjectCn,
        "序列号: " ++ leaf.serial,
        "生效日期: " ++ toString leaf.notBefore,
        "过期日期: " ++ toString leaf.notAfter,
        chainSummary]
      let hdrs : List (String × String) :=
        [("issuer", leaf.issuerCn), ("subject", leaf.subjectCn),
          ("serial", leaf.serial), ("not_before", toString leaf.notBefore),
          ("not_after", toString leaf.notAfter),
          ("chain_count", toString certs.length),
          ("chain_summary", chainSummary)]
      { status := sm.1,
        message := String.intercalate "\n" details,
        request := { method := "SSL", url := target.address },
        response := { statusCode := days, headers := hdrs },
        data := if chainInfo ≠ [] then
            [("certificate_chain", DataVal.chain chainInfo)] else [] }

/-- SSLChecker.Check when the TLS dial fails (part_005 lines 75-92): a down
result with ssl_error details and a nil Go error. -/
def sslCheckDialFail (errMsg : String) : CheckResult × Option String :=
  ({ status := "down",
     message := "SSL/TLS connection failed: " ++ errMsg,
     error := some { type := "ssl_error", message := errMsg } }, none)

/-- The merge step of HTTPSChecker.Check (https.go lines 51-102): copy the
SSL chain data, map the SSL headers onto ssl_-prefixed keys, lift the leaf
day count, and combine status and message. -/
def mergeSSLIntoHTTP (httpResult sslResult : CheckResult) : CheckResult :=
  let d0 := httpResult.data
  let d1 := match sslResult.data.lookup "certificate_chain" with
    | some v => setKey d0 "certificate_chain" v
    | none => d0
  let d2 := match sslResult.data.lookup "certificate_info" with
    | some v => setKey d1 "certificate_info" v
    | none => d1
  let h0 := httpResult.response.headers
  let h1 := match sslResult.response.headers.lookup "issuer" with
    | some v => setKey h0 "ssl_issuer" v
    | none => h0
  let h2 := match sslResult.response.headers.lookup "subject" with
    | some v => setKey h1 "ssl_subject" v
    | none => h1
  let h3 := match sslResult.response.headers.lookup "serial" with
    | some v => setKey h2 "ssl_serial" v
    | none => h2
  let h4 := match sslResult.data.lookup "certificate_chain" with
    | some (DataVal.chain (c :: _)) =>
        setKey h3 "days_until_expiry" (toString c.daysUntilExpiry)
    | _ => h3
  let sm := if sslResult.status = "down" then
      ("down", httpResult.message ++ " (SSL: " ++ sslResult.message ++ ")")
    else
      (httpResult.status, httpResult.message ++ " | SSL: " ++ sslResult.message)
  { httpResult with
    status := sm.1, message := sm.2, data := d2,
    response := { httpResult.response with headers := h4 } }

/-- HTTPSChecker.Check with the two sub-probe outcomes supplied: when
ssl_check is enabled the SSL result (never accompanied by a Go error) is
merged into the HTTP result; otherwise the HTTP result stands alone. -/
def httpsCheck (sslEnabled : Bool) (sslResult httpResult : CheckResult) :
    CheckResult :=
  if sslEnabled then mergeSSLIntoHTTP httpResult sslResult else httpResult

/-- Capacity of the async Elasticsearch write buffer
(NewService: make(chan *esWriteTask, 500)). -/
def esBufferCap : Nat := 500

/-- The mutable state the result pipeline touches, together with the alert
manager of internal/alert (held elsewhere in the process; Service itself
keeps no reference to it). -/
structure PipelineState where
  statuses : List (Nat × MonitorStatus) := []
  history : List HistoryRecord := []
  esBuffer : List (Nat × CheckResult) := []
  esBufferDrops : Nat := 0
  fileLog : List (Nat × CheckResult) := []
  alert : AlertManager := {}
deriving DecidableEq, Repr

/-- Decimal digit-list parser backing `parseDecInt`. -/
def parseDigits (ds : List Char) : Option Nat :=
  if ds = [] ∨ ¬ ds.all (fun c => c.isDigit) then none
  else some (ds.foldl (fun acc c => acc * 10 + (c.toNat - 48)) 0)

/-- fmt.Sscanf with a %d verb on the decimal strings this pipeline produces
(an optionally signed decimal integer), modeled over the character list. -/
def parseDecInt (s : String) : Option Int :=
  match s.data with
  | [] => none
  | '-' :: ds => (parseDigits ds).map (fun n => -(n : Int))
  | ds => (parseDigits ds).map (fun n => (n : Int))

/-- The SSL block of Service.saveResult (part_004 lines 234-250): for https,
ssl and tls targets, lift `days_until_expiry`, `issuer`, `subject` and
`serial` from the result's response headers into the typed status fields
when those exact keys are present. `fmt.Sscanf("%d")` is modeled by
`String.toInt?`; the writers of this header produce plain decimal. -/
def applySSLHeaders (st : MonitorStatus) (result : CheckResult) :
    MonitorStatus :=
  let h := result.response.headers
  let st1 := match h.lookup "days_until_expiry" with
    | some s => match parseDecInt s with
        | some d => { st with sslDaysExpiry := some d }
        | none => st
    | none => st
  let st2 := match h.lookup "issuer" with
    | some v => { st1 with sslIssuer := some v }
    | none => st1
  let st3 := match h.lookup "subject" with
    | some v => { st2 with sslSubject := some v }
    | none => st2
  match h.lookup "serial" with
  | some v => { st3 with sslSerial := some v }
  | none => st3

/-- Service.saveResult (part_004 lines 217-304): upsert the status row, lift
SSL / resolved-ip / data / DNS extras, append a history row, recompute the
rolling uptime, enqueue the Elasticsearch write without blocking (drop and
warn when the 500-slot buffer is full) and append the file log entry.  The
embedded body touches nothing else: in particular it holds no reference to
the alert manager, which is carried through unchanged. -/
def saveResult (p : PipelineState) (target : MonitorTarget)
    (result : CheckResult) (now : Int) : PipelineState :=
  let st0 := (p.statuses.lookup target.id).getD { targetId := target.id }
  let st1 := { st0 with
    status := result.status, responseTime := result.responseTime,
    message := result.message, checkedAt := now }
  let st2 := if target.type = "https" ∨ target.type = "ssl" ∨ target.type = "tls"
    then applySSLHeaders st1 result else st1
  let st3 := match result.response.headers.lookup "resolved_ip" with
    | some ip => { st2 with resolvedIp := some ip }
    | none => match result.response.headers.lookup "ip" with
        | some ip => { st2 with resolvedIp := some ip }
        | none => st2
  let st4 := if result.data ≠ [] then { st3 with dataStored := some result.data }
    else st3
  let st5 := if target.type = "dns" ∧ result.response.body ≠ "" then
      { st4 with dnsRecords := some result.response.body }
    else st4
  let statuses1 := setKey p.statuses target.id st5
  let newRec : HistoryRecord :=
    { targetId := target.id, status := result.status,
      responseTime := result.responseTime, message := result.message,
      checkedAt := now }
  let hist1 := p.history ++ [newRec]
  let statuses2 := updateUptimePercentage statuses1 hist1 target.id now
  let esFit := p.esBuffer.length < esBufferCap
  { statuses := statuses2,
    history := hist1,
    esBuffer := if esFit then p.esBuffer ++ [(target.id, result)] else p.esBuffer,
    esBufferDrops := if esFit then p.esBufferDrops else p.esBufferDrops + 1,
    fileLog := p.fileLog ++ [(target.id, result)],
    alert := p.alert }

/-- The tail of Service.checkTarget (part_004 lines 208-215): a check whose
Go error is non-nil is logged and dropped; otherwise the result is forwarded
to saveResult. The probe execution itself is I/O and is supplied as
`outcome`. -/
def checkTargetDispatch (p : PipelineState) (target : MonitorTarget)
    (outcome : CheckResult × Option String) (now : Int) : PipelineState :=
  match outcome.2 with
  | some _ => p
  | none => saveResult p target outcome.1 now

/-- Capacity of Service.checkQueue
(NewService: make(chan *MonitorTarget, 1000)). -/
def checkQueueCap : Nat := 1000

/-- The scheduler-side state of Service: the guarded target registry, the
set of running monitorTarget goroutines (each holding its target pointer),
the bounded check queue, the queue-full warning count, the pipeline state
and the root-context flag. -/
structure SchedState where
  targets : List (Nat × MonitorTarget) := []
  monitors : List MonitorTarget := []
  checkQueue : List MonitorTarget := []
  queueFullWarnings : Nat := 0
  pipe : PipelineState := {}
  cancelled : Bool := false
deriving DecidableEq, Repr

/-- Service.AddTarget (part_004 lines 66-74): store the target and start a
monitorTarget goroutine for it. -/
def addTarget (s : SchedState) (t : MonitorTarget) : SchedState :=
  { s with targets := setKey s.targets t.id t, monitors := s.monitors ++ [t] }

/-- Service.RemoveTarget (part_004 lines 142-151): delete the id from the
registry when present (the Bool is success).  Nothing else is touched: no
timer is stopped and the monitorTarget goroutine keeps running. -/
def removeTarget (s : SchedState) (id : Nat) : SchedState × Bool :=
  if (s.targets.lookup id).isSome then
    ({ s with targets := s.targets.filter (fun p => !(p.1 == id)) }, true)
  else (s, false)

/-- One ticker fire inside Service.monitorTarget (part_004 lines 179-195):
unless the root context is cancelled, attempt a non-blocking enqueue of the
goroutine's target onto the shared check queue; when the queue is full, log
a queue_full warning and skip the check. -/
def monitorTick (s : SchedState) (t : MonitorTarget) : SchedState :=
  if s.cancelled then s
  else if s.checkQueue.length < checkQueueCap then
    { s with checkQueue := s.checkQueue ++ [t] }
  else { s with queueFullWarnings := s.queueFullWarnings + 1 }

/-- One iteration of Service.checkWorker (part_004 lines 106-115): dequeue
the head target and run checkTarget on it, with the probe outcome supplied
(probes are I/O). -/
def workerStep (s : SchedState) (outcome : CheckResult × Option String)
    (now : Int) : SchedState :=
  match s.checkQueue with
  | [] => s
  | t :: rest =>
      { s with checkQueue := rest,
               pipe := checkTargetDispatch s.pipe t outcome now }

/-- HTTPChecker.Check when client.Do fails (http.go lines 181-211): a down
result carrying the request record and network_error details, returned with
a nil Go error. -/
def httpCheckRequestFail (method url : String)
    (reqHeaders : List (String × String)) (body : String) (rt : Int)
    (errMsg : String) : CheckResult × Option String :=
  ({ status := "down", responseTime := rt,
     message := "Request failed: " ++ errMsg,
     request := { method := method, url := url, headers := reqHeaders,
                  body := body },
     error := some { type := "network_error", message := errMsg } }, none)

/-- TCPChecker.Check when the dial fails (tcp.go): down with a nil Go error
and no ErrorDetails. -/
def tcpCheckDialFail (rt : Int) (errMsg : String) :
    CheckResult × Option String :=
  ({ status := "down", responseTime := rt,
     message := "TCP connection failed: " ++ errMsg }, none)

/-- UDPChecker.Check when the dial fails (udp.go): down with a nil Go error
and no ErrorDetails. -/
def udpCheckDialFail (rt : Int) (errMsg : String) :
    CheckResult × Option String :=
  ({ status := "down", responseTime := rt,
     message := "UDP connection failed: " ++ errMsg }, none)

/-- DNSChecker.Check when the resolver lookup fails (dns.go lines 56-77):
down with dns_error details and a nil Go error. -/
def dnsCheckLookupFail (rt : Int) (errMsg : String) :
    CheckResult × Option String :=
  ({ status := "down", responseTime := rt,
     message := "DNS lookup failed: " ++ errMsg,
     error := some { type := "dns_error", message := errMsg } }, none)

/-- SMTPChecker.Check when the initial TCP dial fails (smtp.go lines 42-48):
the down result is returned together with the NON-nil Go error, and carries
no ErrorDetails. -/
def smtpCheckDialFail (errMsg : String) : CheckResult × Option String :=
  ({ status := "down", message := "Connection failed: " ++ errMsg },
   some errMsg)

/-- PingChecker.Check when the ping invocation fails (dns.go lines 255-261):
the down result is returned together with the NON-nil Go error. -/
def pingCheckFail (errMsg : String) : CheckResult × Option String :=
  ({ status := "down", message := "Ping failed: " ++ errMsg }, some errMsg)

/-- SNMPChecker.Check when the SNMP GET fails (snmp.go lines 64-70): the
down result is returned together with the NON-nil Go error. -/
def snmpCheckQueryFail (errMsg : String) : CheckResult × Option String :=
  ({ status := "down", message := "SNMP query failed: " ++ errMsg },
   some errMsg)

/-- net.SplitHostPort restricted to the address shapes the resolver feeds it
(host or host:port, no IPv6 brackets): split at the colon, or fail when the
address carries no port. -/
def splitHostPort (s : String) : Option (String × String) :=
  if s.data.contains ':' then
    some (⟨s.data.takeWhile (fun c => c ≠ ':')⟩,
          ⟨(s.data.dropWhile (fun c => c ≠ ':')).drop 1⟩)
  else none

/-- The host / port pair lookupDoT dials (resolver.go lines 236-244): the
server address split, defaulting to port 853 when no port is present. -/
def dotServerAddress (server : String) : String × String :=
  match splitHostPort server with
  | some hp => hp
  | none => (server, "853")

/-- A network connection as the resolver sees it: either a plain TCP socket
or a TLS session wrapped around one with a verified server name. -/
inductive Conn where
  | tcp (addr : String) : Conn
  | tls (inner : Conn) (serverName : String) : Conn
deriving DecidableEq, Repr

/-- Whether the connection is TLS-wrapped. -/
def Conn.isTls : Conn → Bool
  | Conn.tls _ _ => true
  | Conn.tcp _ => false

/-- resolver.go tlsClient (lines 387-392): returns the connection UNCHANGED
("simplified, without full cert validation"); no TLS wrapping happens. -/
def tlsClient (conn : Conn) (_server : String) : Conn := conn

/-- net.JoinHostPort. -/
def joinHostPort (h p : String) : String := h ++ ":" ++ p

/-- The connection lookupDoT performs its DNS exchange over (resolver.go
lines 246-259): dial TCP to host:port, then the tlsClient upgrade step. -/
def dotConnection (server : String) : Conn :=
  let hp := dotServerAddress server
  tlsClient (Conn.tcp (joinHostPort hp.1 hp.2)) hp.1

/-- The 2-byte big-endian length header of DNS-over-TCP (lookupTCP lines
161-166), prepended to the packed query; bytes as values below 256. -/
def dnsFrameOverTCP (msg : List Nat) : List Nat :=
  (msg.length / 256) % 256 :: msg.length % 256 :: msg

/-- The identical framing block of lookupDoT (lines 281-287). -/
def dnsFrameOverDoT (msg : List Nat) : List Nat :=
  (msg.length / 256) % 256 :: msg.length % 256 :: msg

/-- Spec-side day count, following the specification's words:
days_until_expiry = floor of (not_after - now) / 1 day.  Kept separate from
`sslDaysUntil` (the code's truncating conversion) for comparison. -/
def sslDaysUntilSpec (now notAfter : Int) : Int :=
  Int.fdiv (notAfter - now) 86400

/-- Fixture: the SSL target of the C5 boundary scenario
(warn 30, critical 7). -/
def tgtSslFix : MonitorTarget :=
  { id := 9, type := "ssl", address := "example.com",
    sslWarnDays := 30, sslCriticalDays := 7 }

/-- Fixture: a leaf certificate whose not_after is one second in the past of
the fixture clock 1000000. -/
def leafExpiredFix : SSLCert :=
  { subjectCn := "example.com", issuerCn := "CA-X", serial := "AB",
    notBefore := 0, notAfter := 999999 }

/-- Fixture: the HTTPS target of the C4 scenario. -/
def tgtHttpsFix : MonitorTarget :=
  { id := 7, name := "web", type := "https", address := "https://example.com",
    sslCheck := true, sslGetChain := true,
    sslWarnDays := 30, sslCriticalDays := 7 }

/-- Fixture: a leaf certificate 100 full days from expiry at clock 1000000. -/
def leafOkFix : SSLCert :=
  { subjectCn := "example.com", issuerCn := "CA-X", serial := "AB",
    notBefore := 0, notAfter := 9640000 }

/-- Fixture: the HTTP sub-result of the C4 scenario. -/
def httpResFix : CheckResult :=
  { status := "up", responseTime := 123, message := "HTTP 200 200 OK",
    response := { statusCode := 200,
                  headers := [("resolved_ip", "93.184.216.34")] } }

/-- Fixture: the SSL sub-result of the C4 scenario, as SSLChecker produces
it on the fixture chain. -/
def sslResFix : CheckResult := sslCheckSuccess tgtHttpsFix 1000000 [leafOkFix]

/-- Fixture: the merged HTTPS result of the C4 scenario. -/
def mergedFix : CheckResult := httpsCheck true sslResFix httpResFix

/-- Fixture: the TCP target of the C2 removal scenario. -/
def tgtTcpFix : MonitorTarget :=
  { id := 1, name := "t1", type := "tcp", address := "127.0.0.1", port := 80 }

/-- Fixture: the down result an in-flight TCP probe of the removed target
produces. -/
def resTcpDownFix : CheckResult :=
  (tcpCheckDialFail 12 "connection refused").1

/-- Fixture: the HTTP target and result of the C1 scenario. -/
def tgtHttpFix : MonitorTarget :=
  { id := 3, name := "site", type := "http", address := "http://a.test" }

/-- Fixture: an up HTTP result for the C1 scenario. -/
def resHttpFix : CheckResult :=
  { status := "up", responseTime := 45, message := "HTTP 200 200 OK" }

/-- Fixture: the S4 failure_count rule - threshold 2, cooldown 300 s. -/
def ruleS4 : AlertRule :=
  { id := 1, conditions := { downConsecutiveTimes := 2 },
    cooldownSeconds := 300 }

/-- Fixture: a down event for target 5 at the given timestamp. -/
def downEvt (ts : Int) : AlertEvent :=
  { targetId := 5, status := "down", responseTime := 0, timestamp := ts }

/-- Fixture: the S4 manager holding only the threshold-2 rule. -/
def mgrS4 : AlertManager := { rules := [ruleS4] }

/-- Fixture: the S4 rule after it fired at t=60. -/
def ruleS4Fired : AlertRule := { ruleS4 with lastAlertTime := some 60 }

/-- Fixture: the S4 manager state right after the fire at t=60. -/
def mgrS4Fired : AlertManager :=
  { rules := [ruleS4Fired], eventBuffer := [(5, [downEvt 0, downEvt 60])] }

/-- Fixture: a target for the C8 queue-full scenario. -/
def tgtQueueFix : MonitorTarget :=
  { id := 2, name := "q", type := "http", address := "http://b.test" }

/-- Fixture: a scheduler state whose check queue is saturated. -/
def schedFullFix : SchedState :=
  { checkQueue := List.replicate checkQueueCap tgtQueueFix }

/- ------------------------------------------------------------------ -/
/- Theorems.                                                           -/
/- ------------------------------------------------------------------ -/

/-- Keyed lookup after a map update finds the new value. -/
theorem lookup_setKey {κ α : Type} [BEq κ] [LawfulBEq κ]
    (m : List (κ × α)) (k : κ) (v : α) :
    (setKey m k v).lookup k = some v := by
  simp [setKey, List.lookup]

/-- The up-count of the 30-day window never exceeds its total count. -/
theorem windowUpCount_le (hist : List HistoryRecord) (tid : Nat) (now : Int) :
    windowUpCount hist tid now ≤ windowCount hist tid now := by
  have hsub : List.Sublist
      (hist.filter
        (fun r => r.targetId == tid && r.status == "up" && inWindow now r))
      (hist.filter (fun r => r.targetId == tid && inWindow now r)) := by
    apply List.monotone_filter_right
    intro a ha
    simp only [Bool.and_eq_true] at ha ⊢
    exact ⟨ha.1.1, ha.2⟩
  exact hsub.length_le

/-- C9. After every check, the stored uptime percentage is the recomputed
value: 0 on an empty trailing-30-day window, otherwise the floor of
100 x up-count / total-count over that window, and it is always at most
100. -/
theorem uptime_percentage_formula (statuses : List (Nat × MonitorStatus))
    (hist : List HistoryRecord) (tid : Nat) (now : Int) (st : MonitorStatus)
    (h : statuses.lookup tid = some st) :
    ((updateUptimePercentage statuses hist tid now).lookup tid
      = some { st with uptimePercentage := uptimeValue hist tid now })
    ∧ (windowCount hist tid now = 0 → uptimeValue hist tid now = 0)
    ∧ (0 < windowCount hist tid now →
        uptimeValue hist tid now
          = (100 * windowUpCount hist tid now) / windowCount hist tid now)
    ∧ uptimeValue hist tid now ≤ 100 := by
  refine ⟨?_, ?_, ?_, ?_⟩
  · unfold updateUptimePercentage
    rw [h]
    exact lookup_setKey statuses tid _
  · intro h0
    unfold uptimeValue
    simp [h0]
  · intro h0
    unfold uptimeValue
    simp only [if_pos h0]
    rw [Nat.mul_comm]
  · unfold uptimeValue
    by_cases h0 : 0 < windowCount hist tid now
    · simp only [if_pos h0]
      calc windowUpCount hist tid now * 100 / windowCount hist tid now
          ≤ windowCount hist tid now * 100 / windowCount hist tid now := by
            exact Nat.div_le_div_right
              (Nat.mul_le_mul_right 100 (windowUpCount_le hist tid now))
        _ = 100 := Nat.mul_div_cancel_left 100 h0
    · simp only [if_neg h0]
      omega

/-- Closed witness for the C9 theorem at a one-row history. -/
theorem uptime_percentage_formula_witness :
    (([(4, ({ targetId := 4 } : MonitorStatus))].lookup 4
        = some { targetId := 4 })
    ∧ (((updateUptimePercentage [(4, { targetId := 4 })]
          [{ targetId := 4, status := "up", checkedAt := 100 }] 4 50).lookup 4
        = some { targetId := 4, uptimePercentage :=
            uptimeValue [{ targetId := 4, status := "up", checkedAt := 100 }] 4 50 })
      ∧ (windowCount [{ targetId := 4, status := "up", checkedAt := 100 }] 4 50 = 0 →
          uptimeValue [{ targetId := 4, status := "up", checkedAt := 100 }] 4 50 = 0)
      ∧ (0 < windowCount [{ targetId := 4, status := "up", checkedAt := 100 }] 4 50 →
          uptimeValue [{ targetId := 4, status := "up", checkedAt := 100 }] 4 50
            = (100 * windowUpCount [{ targetId := 4, status := "up", checkedAt := 100 }] 4 50)
              / windowCount [{ targetId := 4, status := "up", checkedAt := 100 }] 4 50)
      ∧ uptimeValue [{ targetId := 4, status := "up", checkedAt := 100 }] 4 50 ≤ 100)) :=
  ⟨by decide,
   uptime_percentage_formula [(4, { targetId := 4 })]
     [{ targetId := 4, status := "up", checkedAt := 100 }] 4 50
     { targetId := 4 } (by decide)⟩

/-- C10. determineStatus: with an empty expected-status set a code is up
exactly when it lies in [200, 300); with a non-empty set exactly when it is
a member; the result is always up or down; and the boundary examples
299 / 300 / 301 / 302 behave as claimed. -/
theorem http_status_classification (c : Int) (codes : List Int) :
    (determineStatus c codes = "up" ↔
      (if codes = [] then 200 ≤ c ∧ c < 300 else c ∈ codes))
    ∧ (determineStatus c codes = "up" ∨ determineStatus c codes = "down")
    ∧ determineStatus 299 [] = "up" ∧ determineStatus 300 [] = "down"
    ∧ determineStatus 301 [200, 301] = "up"
    ∧ determineStatus 302 [200, 301] = "down" := by
  refine ⟨?_, ?_, by decide, by decide, by decide, by decide⟩
  · unfold determineStatus
    by_cases hc : codes = []
    · subst hc
      simp only [List.length_nil, if_pos rfl, if_pos]
      split_ifs with h
      · simp [h]
      · simp [h]
    · have hlen : codes.length ≠ 0 := by
        simpa [List.length_eq_zero] using hc
      simp only [if_neg hlen, if_neg hc]
      split_ifs with h
      · simp [h]
      · simp [h]
  · unfold determineStatus
    split_ifs <;> simp

/-- The truncating day count is negative exactly when the certificate is at
least one full day past expiry (this is where truncation differs from the
specification's floor, which is negative for any past expiry). -/
theorem sslDaysUntil_neg_iff (now notAfter : Int) :
    sslDaysUntil now notAfter < 0 ↔ notAfter - now ≤ -86400 := by
  unfold sslDaysUntil
  set delta := notAfter - now with hdelta
  rcases le_or_lt 0 delta with h | h
  · have h1 : 0 ≤ Int.tdiv delta 86400 := Int.tdiv_nonneg h (by norm_num)
    constructor <;> intro h2 <;> omega
  · have hn : (0:Int) ≤ -delta := by omega
    have h2 : Int.tdiv delta 86400 = -((-delta) / 86400) := by
      have h3 := Int.neg_tdiv (-delta) 86400
      rw [neg_neg] at h3
      rw [h3, Int.tdiv_eq_ediv hn (by norm_num)]
    rw [h2]
    have h3 : (1:Int) ≤ (-delta) / 86400 ↔ 1 * 86400 ≤ -delta :=
      Int.le_ediv_iff_mul_le (by norm_num)
    constructor
    · intro h4
      have h5 : (1:Int) ≤ (-delta) / 86400 := by omega
      have h6 := h3.mp h5
      omega
    · intro h4
      have h5 : (1:Int) * 86400 ≤ -delta := by omega
      have h6 := h3.mpr h5
      omega

/-- C5 (amended). The SSL probe's status classification in terms of the
truncating day count actually computed by the code: down exactly when the
leaf is at least one full day past expiry, critical exactly when not down
and the day count is at most critical_days, warning on (critical_days,
warn_days], up beyond warn_days. -/
theorem ssl_classification_trunc (now notAfter warn crit : Int)
    (h0 : 0 ≤ crit) (h1 : crit ≤ warn) :
    ((sslStatusMessage (sslDaysUntil now notAfter) crit warn).1 = "down"
      ↔ notAfter - now ≤ -86400)
    ∧ ((sslStatusMessage (sslDaysUntil now notAfter) crit warn).1 = "critical"
      ↔ (-86400 < notAfter - now ∧ sslDaysUntil now notAfter ≤ crit))
    ∧ ((sslStatusMessage (sslDaysUntil now notAfter) crit warn).1 = "warning"
      ↔ (crit < sslDaysUntil now notAfter ∧ sslDaysUntil now notAfter ≤ warn))
    ∧ ((sslStatusMessage (sslDaysUntil now notAfter) crit warn).1 = "up"
      ↔ warn < sslDaysUntil now notAfter) := by
  have hkey := sslDaysUntil_neg_iff now notAfter
  have hfst : ∀ days crit warn : Int,
      (sslStatusMessage days crit warn).1 =
        if days < 0 then "down" else if days ≤ crit then "critical"
        else if days ≤ warn then "warning" else "up" := by
    intro days crit warn
    unfold sslStatusMessage
    split_ifs <;> rfl
  set days := sslDaysUntil now notAfter with hdays
  rw [hfst]
  split_ifs with hd hc hw
  · refine ⟨⟨fun _ => hkey.mp hd, fun _ => rfl⟩, ?_, ?_, ?_⟩
    · constructor
      · intro h; exact absurd h (by decide)
      · rintro ⟨hgt, _⟩
        exfalso
        have := hkey.mp hd
        omega
    · constructor
      · intro h; exact absurd h (by decide)
      · rintro ⟨hgt, _⟩; omega
    · constructor
      · intro h; exact absurd h (by decide)
      · intro hgt; omega
  · have hgt : -86400 < notAfter - now := by
      by_contra hcon
      push_neg at hcon
      exact hd (hkey.mpr hcon)
    refine ⟨?_, ⟨fun _ => ⟨hgt, hc⟩, fun _ => rfl⟩, ?_, ?_⟩
    · constructor
      · intro h; exact absurd h (by decide)
      · intro hle; exact absurd (hkey.mpr hle) hd
    · constructor
      · intro h; exact absurd h (by decide)
      · rintro ⟨hgt2, _⟩; omega
    · constructor
      · intro h; exact absurd h (by decide)
      · intro hgt2; omega
  · have hgt : -86400 < notAfter - now := by
      by_contra hcon
      push_neg at hcon
      exact hd (hkey.mpr hcon)
    refine ⟨?_, ?_, ⟨fun _ => ⟨by omega, hw⟩, fun _ => rfl⟩, ?_⟩
    · constructor
      · intro h; exact absurd h (by decide)
      · intro hle; exact absurd (hkey.mpr hle) hd
    · constructor
      · intro h; exact absurd h (by decide)
      · rintro ⟨_, hle⟩; omega
    · constructor
      · intro h; exact absurd h (by decide)
      · intro hgt2; omega
  · refine ⟨?_, ?_, ?_, ⟨fun _ => by omega, fun _ => rfl⟩⟩
    · constructor
      · intro h; exact absurd h (by decide)
      · intro hle
        have := hkey.mpr hle
        omega
    · constructor
      · intro h; exact absurd h (by decide)
      · rintro ⟨_, hle⟩; omega
    · constructor
      · intro h; exact absurd h (by decide)
      · rintro ⟨_, hle⟩; omega

/-- Closed witness for the C5 amended theorem: clock 1000000, leaf expiring
at 1000000 + 10 days, warn 30, critical 7 gives a day count of 10 and
status warning. -/
theorem ssl_classification_trunc_witness :
    ((0:Int) ≤ 7 ∧ (7:Int) ≤ 30)
    ∧ (((sslStatusMessage (sslDaysUntil 1000000 1864000) 7 30).1 = "down"
        ↔ (1864000 - 1000000 : Int) ≤ -86400)
      ∧ ((sslStatusMessage (sslDaysUntil 1000000 1864000) 7 30).1 = "critical"
        ↔ ((-86400 : Int) < 1864000 - 1000000
            ∧ sslDaysUntil 1000000 1864000 ≤ 7))
      ∧ ((sslStatusMessage (sslDaysUntil 1000000 1864000) 7 30).1 = "warning"
        ↔ ((7:Int) < sslDaysUntil 1000000 1864000
            ∧ sslDaysUntil 1000000 1864000 ≤ 30))
      ∧ ((sslStatusMessage (sslDaysUntil 1000000 1864000) 7 30).1 = "up"
        ↔ (30:Int) < sslDaysUntil 1000000 1864000)) :=
  ⟨⟨by decide, by decide⟩,
   ssl_classification_trunc 1000000 1864000 30 7 (by decide) (by decide)⟩

/-- C5 counterexample: a leaf certificate with not_after one second before
now gives a truncated day count of 0, so the probe reports critical, not
down as the claim (with its floor formula) states; the floor formula would
give -1 and down. -/
theorem ssl_expired_one_second_not_down :
    sslDaysUntil 1000000 999999 = 0
    ∧ sslDaysUntilSpec 1000000 999999 = -1
    ∧ (sslCheckSuccess tgtSslFix 1000000 [leafExpiredFix]).status = "critical"
    ∧ (sslCheckSuccess tgtSslFix 1000000 [leafExpiredFix]).status ≠ "down"
    ∧ (sslStatusMessage (sslDaysUntilSpec 1000000 999999) 7 30).1 = "down" := by
  refine ⟨by decide, by decide, ?_, ?_, by decide⟩
  · rfl
  · decide

/-- C6. The DoT transport: the server address defaults to port 853 when it
carries no port and the 2-byte big-endian framing is identical to
DNS-over-TCP, but tlsClient returns the TCP connection unchanged, so the
query travels over plain TCP with no TLS wrapping and no hostname
verification - contrary to the claim. -/
theorem dot_no_tls_wrapping :
    (∀ c h, tlsClient c h = c)
    ∧ dotServerAddress "1.1.1.1" = ("1.1.1.1", "853")
    ∧ dotServerAddress "9.9.9.9:8853" = ("9.9.9.9", "8853")
    ∧ dotConnection "1.1.1.1" = Conn.tcp "1.1.1.1:853"
    ∧ (dotConnection "1.1.1.1").isTls = false
    ∧ (∀ m, dnsFrameOverDoT m = dnsFrameOverTCP m)
    ∧ dnsFrameOverDoT [7, 8, 9] = [0, 3, 7, 8, 9] := by
  refine ⟨fun c h => rfl, by decide, by decide, by decide, by decide,
    fun m => rfl, by decide⟩

/-- C2. RemoveTarget only deletes the id from the registry: the target's
monitor goroutine is still running afterwards (the removed target remains
in `monitors`), its next tick still enqueues a check, and the worker that
picks it up still produces a result for the removed id - a fresh history
row and a recreated status row. -/
theorem removeTarget_monitor_keeps_running :
    ((removeTarget (addTarget {} tgtTcpFix) 1).2 = true)
    ∧ ((removeTarget (addTarget {} tgtTcpFix) 1).1.targets.lookup 1 = none)
    ∧ (tgtTcpFix ∈ (removeTarget (addTarget {} tgtTcpFix) 1).1.monitors)
    ∧ ((monitorTick (removeTarget (addTarget {} tgtTcpFix) 1).1
          tgtTcpFix).checkQueue = [tgtTcpFix])
    ∧ ((workerStep (monitorTick (removeTarget (addTarget {} tgtTcpFix) 1).1
          tgtTcpFix) (resTcpDownFix, none) 99).pipe.history.length = 1)
    ∧ (((workerStep (monitorTick (removeTarget (addTarget {} tgtTcpFix) 1).1
          tgtTcpFix) (resTcpDownFix, none) 99).pipe.history.map
            (fun r => r.targetId)) = [1])
    ∧ ((workerStep (monitorTick (removeTarget (addTarget {} tgtTcpFix) 1).1
          tgtTcpFix) (resTcpDownFix, none) 99).pipe.statuses.lookup 1 ≠ none)
    := by decide

/-- C3 counterexample: an SMTP dial failure is returned together with a
non-nil Go error and without ErrorDetails, and the worker's error branch
then discards the result - the pipeline state is unchanged, no status or
history row is written. The TCP dial failure, while returning a nil error,
carries no ErrorDetails either. -/
theorem smtp_failure_error_escapes :
    ((smtpCheckDialFail "connection refused").2 = some "connection refused")
    ∧ ((smtpCheckDialFail "connection refused").1.status = "down")
    ∧ ((smtpCheckDialFail "connection refused").1.error = none)
    ∧ (checkTargetDispatch {} tgtTcpFix
        (smtpCheckDialFail "connection refused") 50 = {})
    ∧ ((tcpCheckDialFail 12 "refused").2 = none)
    ∧ ((tcpCheckDialFail 12 "refused").1.error = none) := by decide

/-- A forwarded result always appends exactly one history row. -/
theorem saveResult_history (p : PipelineState) (t : MonitorTarget)
    (r : CheckResult) (now : Int) :
    (saveResult p t r now).history
      = p.history ++
          [{ targetId := t.id,
             status := r.status,
             responseTime := r.responseTime,
             message := r.message,
             checkedAt := now }] := rfl

/-- C3 (amended). On an I/O failure the HTTP, DNS and SSL probes return a
down result with ErrorDetails and a nil Go error, and the worker forwards
it to the pipeline (one history row is appended); the TCP and UDP probes
return down with a nil error but no ErrorDetails (still forwarded); the
SMTP, ping and SNMP probes return their down result together with a non-nil
Go error, so the worker's error branch discards it and the pipeline is left
unchanged. -/
theorem probe_failure_contract (msg : String) (rt : Int) (p : PipelineState)
    (t : MonitorTarget) (now : Int) (method url body : String)
    (hdrs : List (String × String)) :
    ((httpCheckRequestFail method url hdrs body rt msg).1.status = "down"
      ∧ (httpCheckRequestFail method url hdrs body rt msg).1.error
          = some { type := "network_error", message := msg }
      ∧ (httpCheckRequestFail method url hdrs body rt msg).2 = none
      ∧ (checkTargetDispatch p t (httpCheckRequestFail method url hdrs body rt msg) now).history.length
          = p.history.length + 1)
    ∧ ((dnsCheckLookupFail rt msg).1.status = "down"
      ∧ (dnsCheckLookupFail rt msg).1.error
          = some { type := "dns_error", message := msg }
      ∧ (dnsCheckLookupFail rt msg).2 = none
      ∧ (checkTargetDispatch p t (dnsCheckLookupFail rt msg) now).history.length
          = p.history.length + 1)
    ∧ ((sslCheckDialFail msg).1.status = "down"
      ∧ (sslCheckDialFail msg).1.error
          = some { type := "ssl_error", message := msg }
      ∧ (sslCheckDialFail msg).2 = none
      ∧ (checkTargetDispatch p t (sslCheckDialFail msg) now).history.length
          = p.history.length + 1)
    ∧ ((tcpCheckDialFail rt msg).1.status = "down"
      ∧ (tcpCheckDialFail rt msg).1.error = none
      ∧ (tcpCheckDialFail rt msg).2 = none
      ∧ (checkTargetDispatch p t (tcpCheckDialFail rt msg) now).history.length
          = p.history.length + 1)
    ∧ ((udpCheckDialFail rt msg).1.status = "down"
      ∧ (udpCheckDialFail rt msg).1.error = none
      ∧ (udpCheckDialFail rt msg).2 = none
      ∧ (checkTargetDispatch p t (udpCheckDialFail rt msg) now).history.length
          = p.history.length + 1)
    ∧ ((smtpCheckDialFail msg).1.status = "down"
      ∧ (smtpCheckDialFail msg).2 = some msg
      ∧ (smtpCheckDialFail msg).1.error = none
      ∧ checkTargetDispatch p t (smtpCheckDialFail msg) now = p)
    ∧ ((pingCheckFail msg).1.status = "down"
      ∧ (pingCheckFail msg).2 = some msg
      ∧ (pingCheckFail msg).1.error = none
      ∧ checkTargetDispatch p t (pingCheckFail msg) now = p)
    ∧ ((snmpCheckQueryFail msg).1.status = "down"
      ∧ (snmpCheckQueryFail msg).2 = some msg
      ∧ (snmpCheckQueryFail msg).1.error = none
      ∧ checkTargetDispatch p t (snmpCheckQueryFail msg) now = p) := by
  refine ⟨⟨rfl, rfl, rfl, ?_⟩, ⟨rfl, rfl, rfl, ?_⟩, ⟨rfl, rfl, rfl, ?_⟩,
    ⟨rfl, rfl, rfl, ?_⟩, ⟨rfl, rfl, rfl, ?_⟩,
    ⟨rfl, rfl, rfl, rfl⟩, ⟨rfl, rfl, rfl, rfl⟩, ⟨rfl, rfl, rfl, rfl⟩⟩ <;>
    simp [checkTargetDispatch, saveResult_history, httpCheckRequestFail,
      dnsCheckLookupFail, sslCheckDialFail, tcpCheckDialFail,
      udpCheckDialFail]

/-- C4 (evaluation at the failing input). SSLChecker publishes the leaf
fields under issuer / subject / serial, but the HTTPS merge renames them to
ssl_issuer / ssl_subject / ssl_serial, while Service.saveResult reads the
unrenamed keys: on the merged result the claimed keys are absent, and after
the pipeline runs, the typed SSLIssuer / SSLSubject / SSLSerial fields of
the status row stay empty (only days_until_expiry makes it through). The
down-merge half of the claim does hold: an SSL sub-check that is down forces
overall down and concatenates the message. -/
theorem https_ssl_header_key_mismatch :
    (sslResFix.response.headers.lookup "issuer" = some "CA-X")
    ∧ (sslResFix.response.headers.lookup "subject" = some "example.com")
    ∧ (sslResFix.response.headers.lookup "serial" = some "AB")
    ∧ (mergedFix.response.headers.lookup "ssl_issuer" = some "CA-X")
    ∧ (mergedFix.response.headers.lookup "ssl_subject" = some "example.com")
    ∧ (mergedFix.response.headers.lookup "ssl_serial" = some "AB")
    ∧ (mergedFix.response.headers.lookup "issuer" = none)
    ∧ (mergedFix.response.headers.lookup "subject" = none)
    ∧ (mergedFix.response.headers.lookup "serial" = none)
    ∧ (mergedFix.response.headers.lookup "days_until_expiry" = some "100")
    ∧ (mergedFix.data.lookup "certificate_chain" ≠ none)
    ∧ (((saveResult {} tgtHttpsFix mergedFix 1000000).statuses.lookup 7).map
          (fun st => (st.sslIssuer, st.sslSubject, st.sslSerial,
            st.sslDaysExpiry))
        = some (none, none, none, some 100))
    ∧ ((httpsCheck true
          { sslResFix with status := "down", message := "SSL bad" }
          httpResFix).status = "down")
    ∧ ((httpsCheck true
          { sslResFix with status := "down", message := "SSL bad" }
          httpResFix).message = "HTTP 200 200 OK (SSL: SSL bad)") := by
  decide

/-- applySSLHeaders leaves the status field alone. -/
theorem applySSLHeaders_status (st : MonitorStatus) (r : CheckResult) :
    (applySSLHeaders st r).status = st.status := by
  unfold applySSLHeaders
  dsimp only
  repeat' split
  all_goals rfl

/-- applySSLHeaders leaves the checked-at field alone. -/
theorem applySSLHeaders_checkedAt (st : MonitorStatus) (r : CheckResult) :
    (applySSLHeaders st r).checkedAt = st.checkedAt := by
  unfold applySSLHeaders
  dsimp only
  repeat' split
  all_goals rfl

/-- applySSLHeaders leaves the uptime field alone. -/
theorem applySSLHeaders_uptime (st : MonitorStatus) (r : CheckResult) :
    (applySSLHeaders st r).uptimePercentage = st.uptimePercentage := by
  unfold applySSLHeaders
  dsimp only
  repeat' split
  all_goals rfl

/-- C1 (amended). Service.saveResult performs the upsert (the status row of
the target afterwards carries the result's status, the checked-at stamp and
the freshly recomputed uptime), appends exactly one history row and one
file-log entry - and leaves the alert manager untouched: no event is
appended to any buffer and no rule evaluation runs. -/
theorem saveResult_pipeline_no_alert (p : PipelineState) (t : MonitorTarget)
    (r : CheckResult) (now : Int) :
    ((saveResult p t r now).alert = p.alert)
    ∧ ((saveResult p t r now).fileLog = p.fileLog ++ [(t.id, r)])
    ∧ ((saveResult p t r now).history
        = p.history ++
            [{ targetId := t.id,
               status := r.status,
               responseTime := r.responseTime,
               message := r.message,
               checkedAt := now }])
    ∧ (((saveResult p t r now).statuses.lookup t.id).map MonitorStatus.status
        = some r.status)
    ∧ (((saveResult p t r now).statuses.lookup t.id).map MonitorStatus.checkedAt
        = some now)
    ∧ (((saveResult p t r now).statuses.lookup t.id).map
          MonitorStatus.uptimePercentage
        = some (uptimeValue ((saveResult p t r now).history) t.id now)) := by
  refine ⟨rfl, rfl, rfl, ?_, ?_, ?_⟩ <;>
  · unfold saveResult
    simp only [updateUptimePercentage, lookup_setKey, Option.map_some]
    repeat' split
    all_goals
      simp [applySSLHeaders_status, applySSLHeaders_checkedAt,
        applySSLHeaders_uptime]

/-- C1 counterexample: at a concrete input the pipeline does write the
status row and the history row, but the alert manager afterwards is exactly
the alert manager before - its event buffer for the target is still empty,
so the result was NOT appended to the engine's per-target event buffer and
no rule evaluation ran. -/
theorem saveResult_no_alert_notification :
    ((saveResult {} tgtHttpFix resHttpFix 777).history.length = 1)
    ∧ ((saveResult {} tgtHttpFix resHttpFix 777).statuses.lookup 3 ≠ none)
    ∧ ((saveResult {} tgtHttpFix resHttpFix 777).alert = ({} : AlertManager))
    ∧ ((saveResult {} tgtHttpFix resHttpFix 777).alert.eventBuffer.lookup 3
        = none)
    ∧ (getBuffer (saveResult {} tgtHttpFix resHttpFix 777).alert 3 = []) := by
  decide

/-- A rule sitting inside its cooldown window is skipped by the rule loop:
it neither dispatches nor changes. -/
theorem stepRule_cooldown_skip (buf : List AlertEvent) (e : AlertEvent)
    (now : Int) (r : AlertRule) (t0 : Int)
    (hcd : 0 < r.cooldownSeconds) (hlast : r.lastAlertTime = some t0)
    (hnow : now < t0 + r.cooldownSeconds) :
    stepRule buf e now r = (r, false) := by
  unfold stepRule
  split_ifs with h1 h2 h3 h4
  · rfl
  · rfl
  · rfl
  · exfalso
    apply h3
    rw [hlast]
    simp only [Option.any, Bool.and_eq_true, decide_eq_true_eq]
    exact ⟨hcd, by omega⟩
  · rfl

/-- Inside the cooldown window, ProcessEvent keeps the rule unchanged and
its dispatch flag false. -/
theorem processEvent_rule_skip (m : AlertManager) (e : AlertEvent)
    (now : Int) (i : Nat) (r : AlertRule) (t0 : Int)
    (hr : m.rules.get? i = some r)
    (hcd : 0 < r.cooldownSeconds) (hlast : r.lastAlertTime = some t0)
    (hnow : now < t0 + r.cooldownSeconds) :
    ((processEvent m e now).1.rules.get? i = some r)
    ∧ ((processEvent m e now).2.get? i = some false) := by
  have hskip := stepRule_cooldown_skip (pushEvent (getBuffer m e.targetId) e)
    e now r t0 hcd hlast hnow
  have hr' : m.rules[i]? = some r := by
    rw [← List.get?_eq_getElem?]
    exact hr
  unfold processEvent
  refine ⟨?_, ?_⟩ <;> simp [List.getElem?_map, hr', hskip]

/-- C7. A rule with a positive cooldown that last fired at t0 dispatches for
no event processed strictly inside the window [t0, t0 + cooldown): over any
such event sequence the rule is unchanged (so its last-fire stamp stays t0)
and every dispatch flag for it is false - the rule fires at most once per
cooldown window. -/
theorem alert_rule_cooldown (m : AlertManager) (i : Nat) (r : AlertRule)
    (t0 : Int) (evs : List (AlertEvent × Int))
    (hr : m.rules.get? i = some r)
    (hcd : 0 < r.cooldownSeconds)
    (hlast : r.lastAlertTime = some t0)
    (htimes : ∀ p ∈ evs, p.2 < t0 + r.cooldownSeconds) :
    ((runEvents m evs).1.rules.get? i = some r)
    ∧ (∀ fl ∈ (runEvents m evs).2, fl.get? i = some false) := by
  induction evs generalizing m with
  | nil =>
      refine ⟨hr, ?_⟩
      intro fl hfl
      simp [runEvents] at hfl
  | cons q rest ih =>
      obtain ⟨e, now⟩ := q
      have hnow : now < t0 + r.cooldownSeconds :=
        htimes (e, now) (List.mem_cons_self _ _)
      have hstep := processEvent_rule_skip m e now i r t0 hr hcd hlast hnow
      have htail := ih (processEvent m e now).1 hstep.1
        (fun p hp => htimes p (List.mem_cons_of_mem _ hp))
      refine ⟨?_, ?_⟩
      · show (runEvents (processEvent m e now).1 rest).1.rules.get? i = some r
        exact htail.1
      · intro fl hfl
        have hfl' : fl = (processEvent m e now).2
            ∨ fl ∈ (runEvents (processEvent m e now).1 rest).2 := by
          simpa [runEvents] using hfl
        rcases hfl' with hfl' | hfl'
        · rw [hfl']
          exact hstep.2
        · exact htail.2 fl hfl'

/-- Closed witness for C7, the S4 scenario: a threshold-2 failure_count
rule with cooldown 300 fires on the second consecutive down (exactly one
dispatch over the three events), and a third down 60 s after the fire -
inside the cooldown window - does not dispatch. -/
theorem alert_rule_cooldown_witness :
    (((runEvents mgrS4 [(downEvt 0, 0), (downEvt 60, 60), (downEvt 120, 120)]).2.map
        (fun fl => fl.count true)).sum = 1)
    ∧ (mgrS4Fired.rules.get? 0 = some ruleS4Fired)
    ∧ ((0:Int) < ruleS4Fired.cooldownSeconds)
    ∧ (ruleS4Fired.lastAlertTime = some 60)
    ∧ (∀ p ∈ [(downEvt 120, (120:Int))], p.2 < 60 + ruleS4Fired.cooldownSeconds)
    ∧ (((runEvents mgrS4Fired [(downEvt 120, 120)]).1.rules.get? 0
          = some ruleS4Fired)
      ∧ (∀ fl ∈ (runEvents mgrS4Fired [(downEvt 120, 120)]).2,
          fl.get? 0 = some false)) :=
  ⟨by decide, by decide, by decide, by decide, by decide,
   alert_rule_cooldown mgrS4Fired 0 ruleS4Fired 60 [(downEvt 120, 120)]
     (by decide) (by decide) (by decide) (by decide)⟩

/-- C8. A tick arriving at a saturated check queue is dropped: the only
state change is the queue_full warning counter (queue, registry, pipeline
and CurrentStatus store are untouched, and no result can ever be produced
for the dropped tick since nothing was enqueued); the enqueue is a total
function of the state, never blocking; and once a worker drains one entry,
the next tick enqueues successfully. -/
theorem tick_queue_full_drop (s : SchedState) (t t2 : MonitorTarget)
    (outcome : CheckResult × Option String) (now : Int)
    (hfull : s.checkQueue.length = checkQueueCap)
    (hnc : s.cancelled = false) :
    (monitorTick s t = { s with queueFullWarnings := s.queueFullWarnings + 1 })
    ∧ ((monitorTick s t).checkQueue = s.checkQueue)
    ∧ ((monitorTick s t).pipe = s.pipe)
    ∧ ((monitorTick s t).targets = s.targets)
    ∧ ((workerStep (monitorTick s t) outcome now).checkQueue.length
        = checkQueueCap - 1)
    ∧ ((monitorTick (workerStep (monitorTick s t) outcome now) t2).checkQueue
        = (workerStep (monitorTick s t) outcome now).checkQueue ++ [t2]) := by
  have hdrop : monitorTick s t
      = { s with queueFullWarnings := s.queueFullWarnings + 1 } := by
    unfold monitorTick
    rw [hnc]
    simp [hfull, checkQueueCap]
  rcases hq : s.checkQueue with _ | ⟨a, l⟩
  · rw [hq] at hfull
    simp [checkQueueCap] at hfull
  · have hlen : l.length + 1 = checkQueueCap := by
      rw [hq] at hfull
      simpa using hfull
    have hwork : workerStep (monitorTick s t) outcome now
        = { s with queueFullWarnings := s.queueFullWarnings + 1,
                   checkQueue := l,
                   pipe := checkTargetDispatch s.pipe a outcome now } := by
      rw [hdrop]
      unfold workerStep
      simp [hq]
    refine ⟨by simp [hdrop, hq], by simp [hdrop, hq], by simp [hdrop],
      by simp [hdrop], ?_, ?_⟩
    · rw [hwork]
      simp
      omega
    · rw [hwork]
      unfold monitorTick
      simp only [hnc]
      have hroom : l.length < checkQueueCap := by omega
      simp [hroom]

/-- Closed witness for C8 at a queue of exactly 1000 pending targets. -/
theorem tick_queue_full_drop_witness :
    (schedFullFix.checkQueue.length = checkQueueCap
      ∧ schedFullFix.cancelled = false)
    ∧ ((monitorTick schedFullFix tgtQueueFix
          = { schedFullFix with
              queueFullWarnings := schedFullFix.queueFullWarnings + 1 })
      ∧ ((monitorTick schedFullFix tgtQueueFix).checkQueue
          = schedFullFix.checkQueue)
      ∧ ((monitorTick schedFullFix tgtQueueFix).pipe = schedFullFix.pipe)
      ∧ ((monitorTick schedFullFix tgtQueueFix).targets = schedFullFix.targets)
      ∧ ((workerStep (monitorTick schedFullFix tgtQueueFix)
            (resTcpDownFix, none) 5).checkQueue.length = checkQueueCap - 1)
      ∧ ((monitorTick (workerStep (monitorTick schedFullFix tgtQueueFix)
            (resTcpDownFix, none) 5) tgtQueueFix).checkQueue
          = (workerStep (monitorTick schedFullFix tgtQueueFix)
              (resTcpDownFix, none) 5).checkQueue ++ [tgtQueueFix])) :=
  ⟨⟨by simp [schedFullFix], rfl⟩,
   tick_queue_full_drop schedFullFix tgtQueueFix tgtQueueFix
     (resTcpDownFix, none) 5 (by simp [schedFullFix]) rfl⟩

end ArrowGo
